import Mathlib

/-!
Verification of the MedRAX streamlit agent front-end
(`app.py` session/turn logic and `tools.py` tool stubs)
against its natural-language specification.

The embedding models:
* `tools.py`: `classify_lesion_tool` and `segment_image_tool`, with the
  filesystem made explicit (PIL `Image.open` can fail; `save` writes a file)
  and Python exceptions modelled by `Except`.
* `app.py`: the per-turn interaction block (the `st.chat_input` branch,
  lines 126-190): the image/credential checks, the UI transcript
  `st.session_state.messages`, the planner memory
  `st.session_state.agent_history`, the `try/except` around
  `agent_executor.invoke`, and the artifact extraction for
  `segmented_result.png`.

External nondeterminism (the LLM run outcome, whether the artifact file
exists at extraction time, which file the user uploaded) is passed in as
explicit parameters of each turn.
-/

/-- Contents of a file on disk.  The segmentation stub simply copies the
opened image, so an image's content is abstracted to a `Nat` payload;
non-image files (which `PIL.Image.open` rejects) are `other`. -/
inductive FileData where
  | image (pixels : Nat) : FileData
  | other : FileData
deriving DecidableEq, Repr

/-- The filesystem: an association list from path to content; `lookup`
returns the most recent write, so prepending models overwriting. -/
def Disk := List (String × FileData)

instance : DecidableEq Disk := inferInstanceAs (DecidableEq (List (String × FileData)))

/-- A path exists on disk iff it has an entry. -/
def Disk.exists_file (d : Disk) (p : String) : Bool :=
  (List.lookup p d).isSome

/-- `PIL.Image.open`: succeeds iff the path denotes an image file,
otherwise raises (modelled as `Except.error`). -/
def pilOpen (d : Disk) (p : String) : Except String Nat :=
  match List.lookup p d with
  | some (FileData.image px) => Except.ok px
  | _ => Except.error ("cannot identify image file " ++ p)

/-- `Image.save`: write the image content at the given path (overwrites). -/
def pilSave (d : Disk) (p : String) (px : Nat) : Disk :=
  (p, FileData.image px) :: d

/-- The constant analysis report returned by the classification stub
(`tools.py` line 30). -/
def analysis_result : String :=
  "分析报告：在右肺上叶检测到一处 8mm 的微小结节 (GGO)，建议进行随访。"

/-- `classify_lesion_tool` (`tools.py` lines 11-33): logs, sleeps, and
returns the fixed report string; the body has no fallible operation, so
seen from the caller the invocation always returns `ok`. -/
def classify_lesion_tool (image_path : String) : String :=
  analysis_result

/-- The classification tool as observed across the invocation boundary:
an exception would surface as `Except.error`; the body has none. -/
def classify_lesion_invoke (image_path : String) : Except String String :=
  Except.ok (classify_lesion_tool image_path)

/-- The hard-coded artifact path of the segmentation stub
(`tools.py` line 66). -/
def segmented_image_path : String := "segmented_result.png"

/-- The `try:` block of `segment_image_tool` (`tools.py` lines 57-72):
open the original image, save a copy under the fixed artifact name,
return that name.  Exceptions propagate as `Except.error`. -/
def segTry (d : Disk) (image_path : String) (lesion_description : String) :
    Except String (Disk × String) := do
  let px ← pilOpen d image_path
  let d' := pilSave d segmented_image_path px
  Except.ok (d', segmented_image_path)

/-- `segment_image_tool` (`tools.py` lines 35-76): run the `try:` block;
the `except` clause converts any failure into a returned error-message
string (and leaves the disk as it was). -/
def segment_image_tool (d : Disk) (image_path : String) (lesion_description : String) :
    Disk × String :=
  match segTry d image_path lesion_description with
  | Except.ok r => r
  | Except.error _ => (d, "错误：无法处理图像 " ++ image_path)

/-- The segmentation tool as observed across the invocation boundary:
an uncaught exception would surface as `Except.error`; the body catches
everything, so the invocation is the caught result wrapped in `ok`. -/
def segment_image_invoke (d : Disk) (image_path : String) (lesion_description : String) :
    Except String (Disk × String) :=
  Except.ok (segment_image_tool d image_path lesion_description)

/-! ## The session orchestrator (`app.py`, lines 106-190) -/

/-- A LangChain chat message: `HumanMessage` or `AIMessage`
(`app.py` lines 164-165).  `st.session_state.agent_history` — the
Conversation Memory replayed to the planner — is a list of these. -/
inductive Msg where
  | human (content : String) : Msg
  | ai (content : String) : Msg
deriving DecidableEq, Repr

/-- An entry of the UI transcript `st.session_state.messages`: a dict with
`role`, `content` and an optional `image_path` key
(`app.py` lines 143, 182-185, 190). -/
structure UIMessage where
  role : String
  content : String
  image_path : Option String := none
deriving DecidableEq, Repr

/-- The per-session state held in `st.session_state`
(`app.py` lines 108-113). -/
structure SessionState where
  messages : List UIMessage
  agent_history : List Msg
deriving DecidableEq, Repr

/-- Fresh session state (`app.py` lines 108-113). -/
def SessionState.init : SessionState := ⟨[], []⟩

/-- Outcome of `agent_executor.invoke`: either the `output` text of a
finished run, or the exception message of a failed one. -/
inductive RunOutcome where
  | success (output : String) : RunOutcome
  | failure (err : String) : RunOutcome
deriving DecidableEq, Repr

/-- How a turn ended: the per-turn state machine of the spec
(`idle → validating → running → \x7bcompleted, rejected, failed\x7d`). -/
inductive TurnStatus where
  | rejectedNoImage : TurnStatus
  | rejectedNotConfigured : TurnStatus
  | completed : TurnStatus
  | failed : TurnStatus
deriving DecidableEq, Repr

/-- The external circumstances of one `st.chat_input` submission: the
prompt, whether a file is uploaded (and its temp path), whether the
executor was configured, what `agent_executor.invoke` did, and whether
`segmented_result.png` exists on disk at extraction time
(`os.path.exists`, `app.py` line 173). -/
structure TurnInput where
  prompt : String
  uploaded : Option String
  hasExecutor : Bool
  run : RunOutcome
  segExists : Bool
deriving DecidableEq, Repr

/-- Python's substring test `needle in hay`. -/
def strContains (hay needle : String) : Bool :=
  decide (needle.toList <:+: hay.toList)

/-- Artifact extraction (`app.py` lines 171-174): `new_image_path` is the
fixed artifact name iff the answer text mentions it and the file exists
(`segExists` is the value of `os.path.exists("segmented_result.png")` at
extraction time); otherwise it stays `None`. -/
def extract_new_image_path (response_text : String) (segExists : Bool) : Option String :=
  if strContains response_text segmented_image_path && segExists then
    some segmented_image_path
  else
    none

/-- One submission of `st.chat_input` (`app.py` lines 126-190).

* `uploaded_file is None` → warning, nothing touched (lines 129-130);
* `agent_executor is None` → error, nothing touched (lines 132-133);
* otherwise append the user message to the UI transcript (line 143),
  invoke the executor (line 160):
  - on success append `HumanMessage`/`AIMessage` to `agent_history`
    (lines 164-165), extract the artifact iff the answer mentions
    `segmented_result.png` and the file exists (lines 171-174), and
    append the assistant UI message with the optional image (lines
    182-185);
  - on exception append only an assistant UI error message (lines
    187-190); `agent_history` is untouched. -/
def handleTurn (st : SessionState) (inp : TurnInput) : SessionState × TurnStatus :=
  match inp.uploaded with
  | none => (st, TurnStatus.rejectedNoImage)
  | some _ =>
    if inp.hasExecutor = false then
      (st, TurnStatus.rejectedNotConfigured)
    else
      let messages1 := st.messages ++ [{ role := "user", content := inp.prompt }]
      match inp.run with
      | RunOutcome.success response_text =>
        let history' := st.agent_history ++ [Msg.human inp.prompt, Msg.ai response_text]
        let new_image_path : Option String :=
          extract_new_image_path response_text inp.segExists
        let ui_message : UIMessage :=
          { role := "assistant", content := response_text, image_path := new_image_path }
        ({ messages := messages1 ++ [ui_message], agent_history := history' },
          TurnStatus.completed)
      | RunOutcome.failure e =>
        let error_msg := "Agent 执行出错: " ++ e
        ({ messages := messages1 ++ [{ role := "assistant", content := error_msg }],
            agent_history := st.agent_history },
          TurnStatus.failed)

/-- A whole session: fold the turn handler over the submissions. -/
def runSession (events : List TurnInput) : SessionState :=
  events.foldl (fun st e => (handleTurn st e).1) SessionState.init

/-- A turn counts as completed iff it passed both checks and the run
succeeded. -/
def TurnInput.isCompleted (inp : TurnInput) : Bool :=
  inp.uploaded.isSome && inp.hasExecutor &&
    (match inp.run with
      | RunOutcome.success _ => true
      | RunOutcome.failure _ => false)

/-- The `image_path` attached to the most recently displayed message,
if any: the transcript entry the artifact is attached to. -/
def lastImagePath (st : SessionState) : Option String :=
  Option.bind st.messages.getLast? (fun m => m.image_path)

/-! ## Theorems -/

/-- C1: for every user turn whose agent run fails, no assistant Turn is
appended to Conversation Memory (`agent_history`): the planner-visible
history is unchanged from before the run, the turn ends `failed`, and the
error is surfaced to the user as a UI error message for that turn. -/
theorem C1_failed_run_leaves_memory_unchanged (st : SessionState) (inp : TurnInput)
    (p e : String) (himg : inp.uploaded = some p) (hexec : inp.hasExecutor = true)
    (hrun : inp.run = RunOutcome.failure e) :
    (handleTurn st inp).1.agent_history = st.agent_history ∧
    (handleTurn st inp).2 = TurnStatus.failed ∧
    (handleTurn st inp).1.messages
      = st.messages ++ [{ role := "user", content := inp.prompt },
          { role := "assistant", content := "Agent 执行出错: " ++ e }] := by
  obtain ⟨prompt, uploaded, hasExecutor, run, segExists⟩ := inp
  simp only at himg hexec hrun
  subst himg hexec hrun
  simp [handleTurn]

/-- C1 witness: a concrete failing turn. -/
theorem C1_failed_run_leaves_memory_unchanged_witness :
    (⟨"hi", some "temp/a.png", true, RunOutcome.failure "boom", false⟩ :
        TurnInput).uploaded = some "temp/a.png" ∧
    (⟨"hi", some "temp/a.png", true, RunOutcome.failure "boom", false⟩ :
        TurnInput).hasExecutor = true ∧
    (⟨"hi", some "temp/a.png", true, RunOutcome.failure "boom", false⟩ :
        TurnInput).run = RunOutcome.failure "boom" ∧
    ((handleTurn SessionState.init
        ⟨"hi", some "temp/a.png", true, RunOutcome.failure "boom", false⟩).1.agent_history
      = SessionState.init.agent_history ∧
    (handleTurn SessionState.init
        ⟨"hi", some "temp/a.png", true, RunOutcome.failure "boom", false⟩).2
      = TurnStatus.failed ∧
    (handleTurn SessionState.init
        ⟨"hi", some "temp/a.png", true, RunOutcome.failure "boom", false⟩).1.messages
      = SessionState.init.messages ++ [{ role := "user", content := "hi" },
          { role := "assistant", content := "Agent 执行出错: " ++ "boom" }]) :=
  ⟨rfl, rfl, rfl,
    C1_failed_run_leaves_memory_unchanged SessionState.init
      ⟨"hi", some "temp/a.png", true, RunOutcome.failure "boom", false⟩
      "temp/a.png" "boom" rfl rfl rfl⟩

/-- C2 counterexample: a turn that passes both checks but whose run fails
leaves Conversation Memory (`agent_history`) empty — the user Turn was
not appended to memory before the Executor was invoked, contradicting the
claim that it is present in memory even when the run fails. -/
theorem C2_counterexample :
    (handleTurn SessionState.init
        ⟨"hi", some "temp/a.png", true, RunOutcome.failure "network error", false⟩).1.agent_history
      = [] ∧
    Msg.human "hi" ∉
      (handleTurn SessionState.init
        ⟨"hi", some "temp/a.png", true, RunOutcome.failure "network error", false⟩).1.agent_history := by
  decide

/-- C2 amended: for every turn that passes the image and credential
checks, the user *message* is appended to the displayed transcript before
the run outcome is known (it is there for every possible outcome), but
the user Turn enters Conversation Memory (`agent_history`) only after a
successful run, together with the assistant Turn; a failed run adds no
Turn to memory. -/
theorem C2_user_turn_placement (st : SessionState) (inp : TurnInput) (p : String)
    (himg : inp.uploaded = some p) (hexec : inp.hasExecutor = true) :
    (∀ run' : RunOutcome, ∃ rest,
        (handleTurn st { inp with run := run' }).1.messages
          = st.messages ++ { role := "user", content := inp.prompt } :: rest) ∧
    (handleTurn st inp).1.agent_history
      = (match inp.run with
          | RunOutcome.success out =>
              st.agent_history ++ [Msg.human inp.prompt, Msg.ai out]
          | RunOutcome.failure _ => st.agent_history) := by
  obtain ⟨prompt, uploaded, hasExecutor, run, segExists⟩ := inp
  simp only at himg hexec
  subst himg hexec
  constructor
  · intro run'
    cases run' <;> simp [handleTurn]
  · cases run <;> simp [handleTurn]

/-- C2 amended witness: a concrete turn that passes both checks. -/
theorem C2_user_turn_placement_witness :
    (⟨"hi", some "temp/a.png", true, RunOutcome.failure "boom", false⟩ :
        TurnInput).uploaded = some "temp/a.png" ∧
    (⟨"hi", some "temp/a.png", true, RunOutcome.failure "boom", false⟩ :
        TurnInput).hasExecutor = true ∧
    ((∀ run' : RunOutcome, ∃ rest,
        (handleTurn SessionState.init
          { (⟨"hi", some "temp/a.png", true, RunOutcome.failure "boom", false⟩ :
              TurnInput) with run := run' }).1.messages
          = SessionState.init.messages ++ { role := "user", content := "hi" } :: rest) ∧
    (handleTurn SessionState.init
        ⟨"hi", some "temp/a.png", true, RunOutcome.failure "boom", false⟩).1.agent_history
      = (match (⟨"hi", some "temp/a.png", true, RunOutcome.failure "boom", false⟩ :
            TurnInput).run with
          | RunOutcome.success out =>
              SessionState.init.agent_history ++ [Msg.human "hi", Msg.ai out]
          | RunOutcome.failure _ => SessionState.init.agent_history)) :=
  ⟨rfl, rfl,
    C2_user_turn_placement SessionState.init
      ⟨"hi", some "temp/a.png", true, RunOutcome.failure "boom", false⟩
      "temp/a.png" rfl rfl⟩

/-- C4 counterexample: on an empty disk, segmenting a missing image
returns the error-message string, which is not a path to any existing
file on the resulting disk. -/
theorem C4_counterexample :
    (segment_image_tool [] "missing.png" "nodule").2
      = "错误：无法处理图像 missing.png" ∧
    Disk.exists_file (segment_image_tool [] "missing.png" "nodule").1
        (segment_image_tool [] "missing.png" "nodule").2 = false := by
  decide

/-- C4 amended: whenever the image at `P` can be opened, `segment_image`
returns the fixed path `segmented_result.png`, which references a file
existing on disk at the moment of return; when opening fails the tool
instead returns an error-message string. -/
theorem C4_success_returns_existing_file (d : Disk) (P D : String) (px : Nat)
    (h : List.lookup P d = some (FileData.image px)) :
    (segment_image_tool d P D).2 = segmented_image_path ∧
    Disk.exists_file (segment_image_tool d P D).1 (segment_image_tool d P D).2
      = true := by
  simp [segment_image_tool, segTry, pilOpen, h, pilSave, Disk.exists_file,
    List.lookup, Bind.bind, Except.bind]

/-- C4 amended witness: a concrete disk holding an image. -/
theorem C4_success_returns_existing_file_witness :
    List.lookup "a.png" ([("a.png", FileData.image 7)] : Disk)
        = some (FileData.image 7) ∧
    ((segment_image_tool [("a.png", FileData.image 7)] "a.png" "nodule").2
        = segmented_image_path ∧
      Disk.exists_file
          (segment_image_tool [("a.png", FileData.image 7)] "a.png" "nodule").1
          (segment_image_tool [("a.png", FileData.image 7)] "a.png" "nodule").2
        = true) :=
  ⟨rfl, C4_success_returns_existing_file [("a.png", FileData.image 7)]
      "a.png" "nodule" 7 rfl⟩

/-- C5: no input makes the segmentation tool raise to its caller — every
invocation returns `ok` (internal failures are caught and come back as a
returned error-message string). -/
theorem C5_segment_never_raises (d : Disk) (P D : String) :
    ∃ r, segment_image_invoke d P D = Except.ok r :=
  ⟨segment_image_tool d P D, rfl⟩

/-- C7: with no uploaded image, any submission is rejected with the
`NoImage` warning before the Executor runs: the session state is
unchanged, and the result does not depend on the run outcome or on the
disk — observational evidence that the Executor is never invoked. -/
theorem C7_no_image_rejection (st : SessionState) (inp : TurnInput)
    (h : inp.uploaded = none) :
    (handleTurn st inp).1 = st ∧
    (handleTurn st inp).2 = TurnStatus.rejectedNoImage ∧
    (∀ (run' : RunOutcome) (segE : Bool),
        handleTurn st { inp with run := run', segExists := segE }
          = (st, TurnStatus.rejectedNoImage)) := by
  obtain ⟨prompt, uploaded, hasExecutor, run, segExists⟩ := inp
  simp only at h
  subst h
  refine ⟨rfl, rfl, ?_⟩
  intro run' segE
  rfl

/-- C7 witness: a concrete submission with no uploaded image. -/
theorem C7_no_image_rejection_witness :
    (⟨"anything", none, true, RunOutcome.success "out", true⟩ :
        TurnInput).uploaded = none ∧
    ((handleTurn SessionState.init
        ⟨"anything", none, true, RunOutcome.success "out", true⟩).1
      = SessionState.init ∧
    (handleTurn SessionState.init
        ⟨"anything", none, true, RunOutcome.success "out", true⟩).2
      = TurnStatus.rejectedNoImage ∧
    (∀ (run' : RunOutcome) (segE : Bool),
        handleTurn SessionState.init
          { (⟨"anything", none, true, RunOutcome.success "out", true⟩ :
              TurnInput) with run := run', segExists := segE }
          = (SessionState.init, TurnStatus.rejectedNoImage))) :=
  ⟨rfl, C7_no_image_rejection SessionState.init
      ⟨"anything", none, true, RunOutcome.success "out", true⟩ rfl⟩

/-- C8: classifying any image path returns `ok` with a non-empty report:
the classification tool never raises to its caller. -/
theorem C8_classify_total_nonempty (image_path : String) :
    ∃ r, classify_lesion_invoke image_path = Except.ok r ∧ r ≠ "" :=
  ⟨analysis_result, rfl, by decide⟩

/-- Each turn either leaves `agent_history` unchanged (rejected/failed
turns) or appends exactly one human and one assistant message (completed
turns). -/
lemma handleTurn_history_cases (st : SessionState) (e : TurnInput) :
    ((handleTurn st e).1.agent_history = st.agent_history ∧
        e.isCompleted = false) ∨
    (∃ u a, (handleTurn st e).1.agent_history
        = st.agent_history ++ [Msg.human u, Msg.ai a] ∧
        e.isCompleted = true) := by
  obtain ⟨prompt, uploaded, hasExecutor, run, segExists⟩ := e
  cases uploaded with
  | none => exact Or.inl ⟨rfl, rfl⟩
  | some p =>
    cases hasExecutor with
    | false => exact Or.inl ⟨rfl, rfl⟩
    | true =>
      cases run with
      | success out =>
        exact Or.inr ⟨prompt, out, rfl, rfl⟩
      | failure e => exact Or.inl ⟨rfl, rfl⟩

/-- Running a session from an arbitrary starting state appends one
(user, assistant) text pair per completed turn, in order. -/
lemma runFrom_history (events : List TurnInput) : ∀ st : SessionState,
    ∃ pairs : List (String × String),
      ((events.foldl (fun s e => (handleTurn s e).1) st).agent_history
          = st.agent_history
            ++ (pairs.map (fun pr => [Msg.human pr.1, Msg.ai pr.2])).flatten) ∧
      pairs.length = (events.filter (fun e => e.isCompleted)).length := by
  induction events with
  | nil => exact fun st => ⟨[], by simp, by simp⟩
  | cons e es ih =>
    intro st
    obtain ⟨pairs, h1, h2⟩ := ih (handleTurn st e).1
    rcases handleTurn_history_cases st e with ⟨hh, hc⟩ | ⟨u, a, hh, hc⟩
    · refine ⟨pairs, ?_, ?_⟩
      · simpa [hh] using h1
      · simp [List.filter, hc, h2]
    · refine ⟨(u, a) :: pairs, ?_, ?_⟩
      · simp only [List.foldl_cons] at h1 ⊢
        rw [h1, hh]
        simp
      · simp [List.filter, hc, h2]

/-- The flattened pair representation has two Turns per pair. -/
lemma join_pairs_length (pairs : List (String × String)) :
    ((pairs.map (fun pr => [Msg.human pr.1, Msg.ai pr.2])).flatten).length
      = 2 * pairs.length := by
  induction pairs with
  | nil => simp
  | cons p ps ih =>
    simp [ih]
    omega

/-- C3: in every session, Conversation Memory (`agent_history`) is
exactly one (user Turn, assistant Turn) pair per completed turn, in
chronological insertion order — hence exactly 2N Turns after N completed
turns, strictly alternating user then assistant — and each turn only
ever appends to memory (append-only). -/
theorem C3_memory_two_per_completed_turn (events : List TurnInput) :
    (∃ pairs : List (String × String),
        (runSession events).agent_history
          = (pairs.map (fun pr => [Msg.human pr.1, Msg.ai pr.2])).flatten ∧
        pairs.length = (events.filter (fun e => e.isCompleted)).length ∧
        (runSession events).agent_history.length
          = 2 * (events.filter (fun e => e.isCompleted)).length) ∧
    (∀ (st : SessionState) (e : TurnInput),
        st.agent_history <+: (handleTurn st e).1.agent_history) := by
  constructor
  · obtain ⟨pairs, h1, h2⟩ := runFrom_history events SessionState.init
    have h1' : (runSession events).agent_history
        = (pairs.map (fun pr => [Msg.human pr.1, Msg.ai pr.2])).flatten := by
      unfold runSession
      rw [h1]
      simp [SessionState.init]
    exact ⟨pairs, h1', h2, by rw [h1', join_pairs_length, h2]⟩
  · intro st e
    rcases handleTurn_history_cases st e with ⟨hh, _⟩ | ⟨u, a, hh, _⟩
    · rw [hh]
    · rw [hh]
      exact List.prefix_append _ _

/-- The last element of a list extended by two entries. -/
lemma getLast?_append_pair {α : Type} (A : List α) (u m : α) :
    (A ++ [u, m]).getLast? = some m := by
  rw [show A ++ [u, m] = (A ++ [u]) ++ [m] by simp]
  exact List.getLast?_concat _

/-- Closed form of a completed turn: the user message then the assistant
message (with the conditional artifact attachment) join the transcript,
and exactly the two text Turns join `agent_history`. -/
lemma handleTurn_success_eq (st : SessionState) (prompt p out : String) (segE : Bool) :
    handleTurn st ⟨prompt, some p, true, RunOutcome.success out, segE⟩
      = (⟨st.messages ++ [{ role := "user", content := prompt },
            { role := "assistant", content := out,
              image_path := extract_new_image_path out segE }],
          st.agent_history ++ [Msg.human prompt, Msg.ai out]⟩,
          TurnStatus.completed) := by
  simp [handleTurn]

/-- C6: in a completed turn, the artifact is attached to the displayed
assistant message iff the final answer text contains the artifact
filename token AND the artifact file exists on disk at extraction time;
the Conversation Memory update is the same two text Turns in either
case (the attachment never alters memory). -/
theorem C6_artifact_attached_iff (st : SessionState) (inp : TurnInput) (p out : String)
    (himg : inp.uploaded = some p) (hexec : inp.hasExecutor = true)
    (hrun : inp.run = RunOutcome.success out) :
    (lastImagePath (handleTurn st inp).1 = some segmented_image_path
        ↔ (strContains out segmented_image_path = true ∧ inp.segExists = true)) ∧
    (handleTurn st inp).1.agent_history
      = st.agent_history ++ [Msg.human inp.prompt, Msg.ai out] := by
  obtain ⟨prompt, uploaded, hasExecutor, run, segExists⟩ := inp
  simp only at himg hexec hrun
  subst himg hexec hrun
  rw [handleTurn_success_eq]
  refine ⟨?_, rfl⟩
  unfold lastImagePath
  rw [getLast?_append_pair]
  cases hb1 : strContains out segmented_image_path <;> cases segExists <;>
    simp [hb1, extract_new_image_path]

/-- C6 witness: a concrete completed turn whose answer mentions the
artifact while the file exists. -/
theorem C6_artifact_attached_iff_witness :
    (⟨"圈出来", some "temp/a.png", true,
        RunOutcome.success "已保存到 segmented_result.png", true⟩ :
        TurnInput).uploaded = some "temp/a.png" ∧
    (⟨"圈出来", some "temp/a.png", true,
        RunOutcome.success "已保存到 segmented_result.png", true⟩ :
        TurnInput).hasExecutor = true ∧
    (⟨"圈出来", some "temp/a.png", true,
        RunOutcome.success "已保存到 segmented_result.png", true⟩ :
        TurnInput).run = RunOutcome.success "已保存到 segmented_result.png" ∧
    ((lastImagePath (handleTurn SessionState.init
          ⟨"圈出来", some "temp/a.png", true,
            RunOutcome.success "已保存到 segmented_result.png", true⟩).1
        = some segmented_image_path
        ↔ (strContains "已保存到 segmented_result.png" segmented_image_path = true ∧
            (⟨"圈出来", some "temp/a.png", true,
              RunOutcome.success "已保存到 segmented_result.png", true⟩ :
              TurnInput).segExists = true)) ∧
    (handleTurn SessionState.init
        ⟨"圈出来", some "temp/a.png", true,
          RunOutcome.success "已保存到 segmented_result.png", true⟩).1.agent_history
      = SessionState.init.agent_history
          ++ [Msg.human "圈出来", Msg.ai "已保存到 segmented_result.png"]) :=
  ⟨rfl, rfl, rfl,
    C6_artifact_attached_iff SessionState.init
      ⟨"圈出来", some "temp/a.png", true,
        RunOutcome.success "已保存到 segmented_result.png", true⟩
      "temp/a.png" "已保存到 segmented_result.png" rfl rfl rfl⟩

/-- C9: every successful segmentation, whatever its `image_path` and
`lesion_description` arguments, writes its artifact to the one fixed
process-global path `segmented_result.png` and returns exactly that
string; a second successful invocation (here from a different source
image) returns the same string and overwrites the first artifact. -/
theorem C9_fixed_artifact_path_overwrites (d : Disk) (P1 D1 P2 D2 : String)
    (px1 px2 : Nat)
    (h1 : List.lookup P1 d = some (FileData.image px1))
    (h2 : List.lookup P2 d = some (FileData.image px2))
    (hP2 : P2 ≠ segmented_image_path) :
    (segment_image_tool d P1 D1).2 = segmented_image_path ∧
    List.lookup segmented_image_path (segment_image_tool d P1 D1).1
      = some (FileData.image px1) ∧
    (segment_image_tool (segment_image_tool d P1 D1).1 P2 D2).2
      = segmented_image_path ∧
    List.lookup segmented_image_path
        (segment_image_tool (segment_image_tool d P1 D1).1 P2 D2).1
      = some (FileData.image px2) := by
  have hb : (P2 == segmented_image_path) = false := by
    simp [hP2]
  have step1 : segment_image_tool d P1 D1
      = ((segmented_image_path, FileData.image px1) :: d, segmented_image_path) := by
    simp [segment_image_tool, segTry, pilOpen, h1, pilSave, Bind.bind, Except.bind]
  have hlook2 : List.lookup P2 ((segmented_image_path, FileData.image px1) :: d)
      = some (FileData.image px2) := by
    simp [List.lookup, hb, h2]
  have step2 : segment_image_tool
        ((segmented_image_path, FileData.image px1) :: d) P2 D2
      = ((segmented_image_path, FileData.image px2)
          :: (segmented_image_path, FileData.image px1) :: d,
          segmented_image_path) := by
    simp [segment_image_tool, segTry, pilOpen, hlook2, pilSave, Bind.bind,
      Except.bind]
  refine ⟨by rw [step1], ?_, ?_, ?_⟩
  · rw [step1]
    simp [List.lookup]
  · rw [step1]
    simp only
    rw [step2]
  · rw [step1]
    simp only
    rw [step2]
    simp [List.lookup]

/-- C9 witness: two images on disk, segmented one after the other. -/
theorem C9_fixed_artifact_path_overwrites_witness :
    List.lookup "a.png" ([("a.png", FileData.image 1), ("b.png", FileData.image 2)] : Disk)
        = some (FileData.image 1) ∧
    List.lookup "b.png" ([("a.png", FileData.image 1), ("b.png", FileData.image 2)] : Disk)
        = some (FileData.image 2) ∧
    "b.png" ≠ segmented_image_path ∧
    ((segment_image_tool [("a.png", FileData.image 1), ("b.png", FileData.image 2)]
          "a.png" "d1").2 = segmented_image_path ∧
      List.lookup segmented_image_path
          (segment_image_tool [("a.png", FileData.image 1), ("b.png", FileData.image 2)]
            "a.png" "d1").1
        = some (FileData.image 1) ∧
      (segment_image_tool
          (segment_image_tool [("a.png", FileData.image 1), ("b.png", FileData.image 2)]
            "a.png" "d1").1 "b.png" "d2").2 = segmented_image_path ∧
      List.lookup segmented_image_path
          (segment_image_tool
            (segment_image_tool [("a.png", FileData.image 1), ("b.png", FileData.image 2)]
              "a.png" "d1").1 "b.png" "d2").1
        = some (FileData.image 2)) :=
  ⟨rfl, rfl, by decide,
    C9_fixed_artifact_path_overwrites
      [("a.png", FileData.image 1), ("b.png", FileData.image 2)]
      "a.png" "d1" "b.png" "d2" 1 2 rfl rfl (by decide)⟩

/-- C10: the classification stub is a constant function of its
`image_path`: any two paths yield the identical report, so the output is
fully independent of the image (no analysis is performed). -/
theorem C10_classify_constant (p1 p2 : String) :
    classify_lesion_tool p1 = classify_lesion_tool p2 := rfl
